import Mathlib

/-!
Shallow embedding of the Mountain Warehouse PLP monitoring script
(`monitor.py`): the per-URL alert state machine, the run loop, the
notifier, and JSON persistence of the alert state.
-/

/-- The configured list of monitored URLs (`URLS_TO_MONITOR`). -/
def URLS_TO_MONITOR : List String :=
  [ "https://www.mountainwarehouse.com/eu/mens/"
  , "https://www.mountainwarehouse.com/eu/womens/"
  , "https://www.mountainwarehouse.com/eu/kids/"
  , "https://www.mountainwarehouse.com/eu/footwear/"
  , "https://www.mountainwarehouse.com/eu/equipment/"
  , "https://www.mountainwarehouse.com/eu/by-activity/"
  , "https://www.mountainwarehouse.com/eu/camping/"
  , "https://www.mountainwarehouse.com/eu/ski/"
  , "https://www.mountainwarehouse.com/eu/clearance/" ]

/-- The alert threshold (`MIN_SUBCATEGORIES = 8`). -/
def MIN_SUBCATEGORIES : Nat := 8

/-- A persisted per-URL alert record.  In the script this is a JSON
object; each field may be missing from a record read back from disk,
hence the `Option` types.  Records written by the script itself always
set all three fields. -/
structure AlertRecord where
  alerted : Option Bool
  timestamp : Option String
  count : Option Int
deriving DecidableEq, Repr

/-- The alert state: the Python dict mapping URL to record, modelled as
an insertion-ordered association list (Python dicts preserve insertion
order and have unique keys). -/
abbrev AlertState : Type := List (String × AlertRecord)

/-- `alert_state.get(url)`: first binding for `url`, if any. -/
def lookupRecord (st : AlertState) (url : String) : Option AlertRecord :=
  (st.find? (fun p => p.1 = url)).map (fun p => p.2)

/-- `alert_state[url] = r`: overwrite in place if the key exists
(keeping its position, as a Python dict does), else append. -/
def setRecord (st : AlertState) (url : String) (r : AlertRecord) : AlertState :=
  if st.any (fun p => p.1 = url) then
    st.map (fun p => if p.1 = url then (url, r) else p)
  else
    st ++ [(url, r)]

/-- `alert_state.get(url, {}).get('alerted', False)` from
`monitor.py` lines 139 and 152: a missing entry, and a record without
the `alerted` key, both read as `False`. -/
def getAlerted (st : AlertState) (url : String) : Bool :=
  match lookupRecord st url with
  | none => false
  | some r => r.alerted.getD false

/-- The outcome of `count_subcategories` for one URL: either a count,
or an error message (timeout or other fetch failure). -/
inductive Observation where
  | ok (count : Nat)
  | err (msg : String)
deriving DecidableEq, Repr

/-- Split a list of characters on every occurrence of `sep`, the way
Python's `str.split` with a one-character separator does. -/
def splitChar (sep : Char) : List Char → List (List Char)
  | [] => [[]]
  | c :: cs =>
    let rest := splitChar sep cs
    if c = sep then [] :: rest
    else
      match rest with
      | [] => [[c]]
      | w :: ws => (c :: w) :: ws

/-- Python's `s.split(sep)` for a one-character separator. -/
def pySplit (sep : Char) (s : String) : List String :=
  (splitChar sep s.data).map (fun cs => String.mk cs)

/-- `url.split('/')[-2]`: the human label of a monitored URL
(`page_name` in `main`). -/
def pageName (url : String) : String :=
  let parts := pySplit '/' url
  ((parts.drop (parts.length - 2)).headD "")

/-- Result of evaluating one URL: the updated alert state and the issue
and recovery strings appended for that URL. -/
structure EvalResult where
  state : AlertState
  issues : List String
  recoveries : List String
deriving DecidableEq, Repr

/-- The body of the monitoring loop for one URL (`monitor.py`
lines 125-158): on a fetch error, record the issue and leave the state
alone; on a count below `MIN_SUBCATEGORIES`, alert unless already
alerted; on a count at or above the threshold, emit a recovery if the
URL was in alert. `now` is `datetime.now().isoformat()`. -/
def evalTarget (now : String) (st : AlertState) (url : String)
    (obs : Observation) : EvalResult :=
  match obs with
  | .err e =>
      { state := st
      , issues := [pageName url ++ ": " ++ e]
      , recoveries := [] }
  | .ok count =>
      if count < MIN_SUBCATEGORIES then
        if !(getAlerted st url) then
          { state := setRecord st url
              ⟨some true, some now, some (Int.ofNat count)⟩
          , issues := [pageName url ++ ": " ++ toString count ++
              " subcategories (minimum: " ++ toString MIN_SUBCATEGORIES ++ ")"]
          , recoveries := [] }
        else
          { state := st, issues := [], recoveries := [] }
      else
        if getAlerted st url then
          { state := setRecord st url
              ⟨some false, some now, some (Int.ofNat count)⟩
          , issues := []
          , recoveries := [pageName url ++ ": Recovered to " ++
              toString count ++ " subcategories"] }
        else
          { state := st, issues := [], recoveries := [] }

/-- The whole monitoring loop over a list of targets with their
observations, accumulating issues and recoveries in order. -/
def processTargets (now : String) (targets : List (String × Observation))
    (st : AlertState) : EvalResult :=
  match targets with
  | [] => { state := st, issues := [], recoveries := [] }
  | (url, obs) :: rest =>
      let r1 := evalTarget now st url obs
      let r2 := processTargets now rest r1.state
      { state := r2.state
      , issues := r1.issues ++ r2.issues
      , recoveries := r1.recoveries ++ r2.recoveries }

/-- One line of the SMS body: `f"{issue.split(':')[0]}:
{issue.split(':')[1].split()[0]}"` (`monitor.py` line 166). -/
def shortIssue (issue : String) : String :=
  let parts := pySplit ':' issue
  parts.headD "" ++ ": " ++
    (((pySplit ' ' (parts.getD 1 "")).filter (fun s => s ≠ "")).headD "")

/-- The aggregated SMS message built from the issues found
(`monitor.py` lines 165-166). -/
def buildMessage (issues : List String) : String :=
  "MW Alert: " ++ toString issues.length ++ " page(s) <" ++
    toString MIN_SUBCATEGORIES ++ " cats\n" ++
    String.intercalate "\n" (issues.map shortIssue)

/-- The result of one full run of `main`: the state handed to
`save_alert_state`, the accumulated report lists, the result of the SMS
send (absent when no SMS was attempted), and the process exit code. -/
structure RunResult where
  finalState : AlertState
  issuesFound : List String
  recoveries : List String
  smsResult : Option Bool
  exitCode : Nat
deriving DecidableEq, Repr

/-- `main` after the state has been loaded and the observations made:
evaluate every target, send one SMS if any issues were found (its
result is discarded), persist the state unconditionally, and exit 1
exactly when issues were found (`monitor.py` lines 121-190).  `sms`
models `send_twilio_alert` with its environment fixed. -/
def runMonitor (now : String) (targets : List (String × Observation))
    (initState : AlertState) (sms : String → Bool) : RunResult :=
  let r := processTargets now targets initState
  { finalState := r.state
  , issuesFound := r.issues
  , recoveries := r.recoveries
  , smsResult := if r.issues.isEmpty then none else some (sms (buildMessage r.issues))
  , exitCode := if r.issues.isEmpty then 0 else 1 }

/-- The four Twilio configuration values read from the environment;
`none` models an unset variable (`os.getenv` returning `None`). -/
structure TwilioConfig where
  accountSid : Option String
  authToken : Option String
  phoneFrom : Option String
  phoneTo : Option String

/-- Python truthiness of an `os.getenv` result: `None` and the empty
string are falsy. -/
def truthy : Option String → Bool
  | none => false
  | some s => !(s == "")

/-- `send_twilio_alert` (`monitor.py` lines 78-98): return `false` if
any configuration value is falsy or the provider call raises
(modelled by `providerCall` returning `Except.error`); return `true`
when the message was created.  The function never propagates the
provider's exception. -/
def send_twilio_alert (cfg : TwilioConfig)
    (providerCall : String → Except String String) (message : String) : Bool :=
  if !(truthy cfg.accountSid && truthy cfg.authToken &&
       truthy cfg.phoneFrom && truthy cfg.phoneTo) then
    false
  else
    match providerCall message with
    | .ok _ => true
    | .error _ => false

/-- The JSON documents `json.dump` writes and `json.load` reads. -/
inductive Json where
  | null
  | bool (b : Bool)
  | num (n : Int)
  | str (s : String)
  | arr (xs : List Json)
  | obj (fields : List (String × Json))

/-- Read a JSON value as a boolean. -/
def Json.asBool : Json → Option Bool
  | .bool b => some b
  | _ => none

/-- Read a JSON value as an integer. -/
def Json.asInt : Json → Option Int
  | .num n => some n
  | _ => none

/-- Read a JSON value as a string. -/
def Json.asStr : Json → Option String
  | .str s => some s
  | _ => none

/-- First field named `k` of a JSON object. -/
def jsonLookup (fields : List (String × Json)) (k : String) : Option Json :=
  (fields.find? (fun p => p.1 = k)).map (fun p => p.2)

/-- Encode one alert record as the JSON object `json.dump` writes for
it: each field present exactly when set. -/
def encodeRecord (r : AlertRecord) : Json :=
  .obj ((match r.alerted with
         | some b => [("alerted", Json.bool b)]
         | none => []) ++
        (match r.timestamp with
         | some t => [("timestamp", Json.str t)]
         | none => []) ++
        (match r.count with
         | some c => [("count", Json.num c)]
         | none => []))

/-- Decode one alert record from JSON, reading the three known keys;
anything else decodes to an empty record. -/
def decodeRecord (j : Json) : AlertRecord :=
  match j with
  | .obj fs =>
      { alerted := (jsonLookup fs "alerted").bind Json.asBool
      , timestamp := (jsonLookup fs "timestamp").bind Json.asStr
      , count := (jsonLookup fs "count").bind Json.asInt }
  | _ => { alerted := none, timestamp := none, count := none }

/-- `save_alert_state` (`monitor.py` lines 47-50): the JSON document
written to `alert_state.json` — one object field per URL, in mapping
order. -/
def save_alert_state (st : AlertState) : Json :=
  .obj (st.map (fun p => (p.1, encodeRecord p.2)))

/-- `load_alert_state` (`monitor.py` lines 39-44): `none` models a
missing state file (empty mapping); otherwise the JSON object is read
back into a mapping the way `json.load` builds a dict, inserting each
field in order (a duplicate key overwrites in place). -/
def load_alert_state (file : Option Json) : AlertState :=
  match file with
  | none => []
  | some (.obj fs) =>
      fs.foldl (fun acc p => setRecord acc p.1 (decodeRecord p.2)) []
  | some _ => []

/-! ### Helper lemmas about the state mapping -/

theorem lookupRecord_setRecord (st : AlertState) (url u : String) (r : AlertRecord) :
    lookupRecord (setRecord st url r) u =
      if u = url then some r else lookupRecord st u := by
  have hpf : ((fun p : String × AlertRecord => decide (p.1 = u)) ∘
      (fun p => if p.1 = url then (url, r) else p)) =
      (fun p : String × AlertRecord => decide (p.1 = u)) := by
    funext q
    by_cases hq : q.1 = url
    · simp [hq]
    · simp [hq]
  unfold setRecord lookupRecord
  by_cases hmem : st.any (fun p => p.1 = url) = true
  · rw [if_pos hmem, List.find?_map, hpf]
    by_cases hu : u = url
    · subst hu
      obtain ⟨x, hx⟩ : ∃ x, st.find? (fun p => decide (p.1 = u)) = some x := by
        rw [← Option.isSome_iff_exists, List.find?_isSome]
        simpa using List.any_eq_true.mp hmem
      rw [hx]
      have hxu : x.1 = u := by simpa using List.find?_some hx
      simp [hxu]
    · rw [if_neg hu]
      cases hfind : st.find? (fun p => decide (p.1 = u)) with
      | none => simp [hfind]
      | some x =>
        have hxu : x.1 = u := by simpa using List.find?_some hfind
        have hxne : ¬(x.1 = url) := by rw [hxu]; exact hu
        simp [hfind, hxne]
  · rw [if_neg hmem, List.find?_append]
    have hnone : st.find? (fun p => decide (p.1 = url)) = none := by
      rw [List.find?_eq_none]
      intro x hxmem hx1
      exact hmem (List.any_eq_true.mpr ⟨x, hxmem, hx1⟩)
    by_cases hu : u = url
    · subst hu
      rw [hnone]
      simp [List.find?]
    · rw [if_neg hu]
      have h2 : List.find? (fun p => decide (p.1 = u)) [(url, r)] = none := by
        simp [List.find?, Ne.symm hu]
      rw [h2, Option.or_none]

theorem getAlerted_eq_true (st : AlertState) (url : String) (r : AlertRecord)
    (hr : lookupRecord st url = some r) (ha : r.alerted = some true) :
    getAlerted st url = true := by
  unfold getAlerted
  rw [hr]
  show r.alerted.getD false = true
  rw [ha]
  rfl

theorem getAlerted_eq_false (st : AlertState) (url : String)
    (h : lookupRecord st url = none ∨
         ∃ r, lookupRecord st url = some r ∧ r.alerted = none) :
    getAlerted st url = false := by
  unfold getAlerted
  rcases h with h | ⟨r, hr, ha⟩
  · rw [h]
  · rw [hr]
    show r.alerted.getD false = false
    rw [ha]
    rfl

/-! ### Helper lemmas for JSON persistence -/

theorem decodeRecord_encodeRecord (r : AlertRecord) :
    decodeRecord (encodeRecord r) = r := by
  obtain ⟨a, t, c⟩ := r
  cases a <;> cases t <;> cases c <;> rfl

theorem setRecord_not_mem (st : AlertState) (url : String) (r : AlertRecord)
    (h : ∀ p ∈ st, p.1 ≠ url) : setRecord st url r = st ++ [(url, r)] := by
  unfold setRecord
  rw [if_neg]
  intro hany
  obtain ⟨x, hxmem, hx⟩ := List.any_eq_true.mp hany
  exact h x hxmem (by simpa using hx)

theorem foldl_setRecord_nodup :
    ∀ (l acc : AlertState),
      ((acc ++ l).map Prod.fst).Nodup →
      l.foldl (fun a p => setRecord a p.1 p.2) acc = acc ++ l := by
  intro l
  induction l with
  | nil => intro acc _; simp
  | cons hd tl ih =>
      intro acc hnd
      obtain ⟨k, v⟩ := hd
      have hnd2 : ((acc ++ [(k, v)] ++ tl).map Prod.fst).Nodup := by
        simpa [List.append_assoc] using hnd
      have hk : ∀ p ∈ acc, p.1 ≠ k := by
        intro p hp hpk
        rw [List.map_append, List.nodup_append] at hnd
        exact hnd.2.2 (List.mem_map_of_mem Prod.fst hp) (by simp [hpk])
      rw [List.foldl_cons, setRecord_not_mem acc k v hk, ih (acc ++ [(k, v)]) hnd2]
      simp

/-! ### Claim theorems -/

/-- C1: for a URL whose existing record has `alerted=true`, a new
successful count still below the threshold emits no new issue string
and leaves the state — in particular that URL's record, timestamp and
count — unchanged. -/
theorem evalTarget_alerted_below_suppresses (now : String) (st : AlertState)
    (url : String) (count : Nat) (r : AlertRecord)
    (hr : lookupRecord st url = some r) (ha : r.alerted = some true)
    (hc : count < MIN_SUBCATEGORIES) :
    evalTarget now st url (.ok count) = ⟨st, [], []⟩ := by
  have hg := getAlerted_eq_true st url r hr ha
  unfold evalTarget
  simp [hc, hg]

theorem evalTarget_alerted_below_suppresses_witness :
    evalTarget "2026-01-01T00:00:00" [("u", ⟨some true, some "t0", some 5⟩)] "u"
      (.ok 3) = ⟨[("u", ⟨some true, some "t0", some 5⟩)], [], []⟩ :=
  evalTarget_alerted_below_suppresses "2026-01-01T00:00:00"
    [("u", ⟨some true, some "t0", some 5⟩)] "u" 3
    ⟨some true, some "t0", some 5⟩ rfl rfl (by decide)

/-- C2: for a URL whose existing record has `alerted=true`, a new
successful count at or above the threshold emits exactly one recovery
string and no issue, and overwrites that URL's record with
`alerted=false`, the current timestamp and the new count. -/
theorem evalTarget_alerted_at_or_above_recovers (now : String) (st : AlertState)
    (url : String) (count : Nat) (r : AlertRecord)
    (hr : lookupRecord st url = some r) (ha : r.alerted = some true)
    (hc : MIN_SUBCATEGORIES ≤ count) :
    evalTarget now st url (.ok count) =
      ⟨setRecord st url ⟨some false, some now, some (Int.ofNat count)⟩, [],
       [pageName url ++ ": Recovered to " ++ toString count ++ " subcategories"]⟩ ∧
    lookupRecord (evalTarget now st url (.ok count)).state url =
      some ⟨some false, some now, some (Int.ofNat count)⟩ := by
  have hg := getAlerted_eq_true st url r hr ha
  have hnc : ¬(count < MIN_SUBCATEGORIES) := Nat.not_lt.mpr hc
  constructor
  · unfold evalTarget
    simp [hnc, hg]
  · unfold evalTarget
    simp [hnc, hg, lookupRecord_setRecord]

theorem evalTarget_alerted_at_or_above_recovers_witness :
    evalTarget "T" [("u", ⟨some true, some "t0", some 5⟩)] "u" (.ok 9) =
      ⟨[("u", ⟨some false, some "T", some 9⟩)], [],
       ["u: Recovered to 9 subcategories"]⟩ := by
  have h := evalTarget_alerted_at_or_above_recovers "T"
    [("u", ⟨some true, some "t0", some 5⟩)] "u" 9
    ⟨some true, some "t0", some 5⟩ rfl rfl (by decide)
  exact h.1.trans (by decide)

/-- C3: the threshold comparison is strict — any successful count at or
above the threshold (in particular a count exactly equal to it) makes
the evaluation emit no issue string. -/
theorem threshold_comparison_strict (now : String) (st : AlertState)
    (url : String) (count : Nat) (h : MIN_SUBCATEGORIES ≤ count) :
    (evalTarget now st url (.ok count)).issues = [] := by
  have hnc : ¬(count < MIN_SUBCATEGORIES) := Nat.not_lt.mpr h
  unfold evalTarget
  by_cases hg : getAlerted st url <;> simp [hnc, hg]

theorem threshold_comparison_strict_witness :
    (evalTarget "T" [] "u" (.ok 8)).issues = [] :=
  threshold_comparison_strict "T" [] "u" 8 (by decide)

/-- C5: a fetch failure records one issue string carrying the error
text and leaves the alert state — in particular that URL's record —
exactly as it was. -/
theorem evalTarget_error_frame (now : String) (st : AlertState)
    (url : String) (e : String) :
    evalTarget now st url (.err e) =
      ⟨st, [pageName url ++ ": " ++ e], []⟩ ∧
    ∃ pre, pageName url ++ ": " ++ e = pre ++ e :=
  ⟨rfl, pageName url ++ ": ", by rw [String.append_assoc]⟩

/-- C6: for a URL not currently flagged as alerted, a successful count
below the threshold emits exactly one issue string of the documented
shape and writes a record with `alerted=true`, the current timestamp
and the observed count. -/
theorem evalTarget_new_alert (now : String) (st : AlertState)
    (url : String) (count : Nat)
    (hna : getAlerted st url = false) (hc : count < MIN_SUBCATEGORIES) :
    evalTarget now st url (.ok count) =
      ⟨setRecord st url ⟨some true, some now, some (Int.ofNat count)⟩,
       [pageName url ++ ": " ++ toString count ++ " subcategories (minimum: " ++
        toString MIN_SUBCATEGORIES ++ ")"], []⟩ ∧
    lookupRecord (evalTarget now st url (.ok count)).state url =
      some ⟨some true, some now, some (Int.ofNat count)⟩ := by
  constructor
  · unfold evalTarget
    simp [hc, hna]
  · unfold evalTarget
    simp [hc, hna, lookupRecord_setRecord]

theorem evalTarget_new_alert_witness :
    evalTarget "2026-01-01T00:00:00" []
      "https://www.mountainwarehouse.com/eu/mens/" (.ok 5) =
      ⟨[("https://www.mountainwarehouse.com/eu/mens/",
         ⟨some true, some "2026-01-01T00:00:00", some 5⟩)],
       ["mens: 5 subcategories (minimum: 8)"], []⟩ := by
  have h := evalTarget_new_alert "2026-01-01T00:00:00" []
    "https://www.mountainwarehouse.com/eu/mens/" 5 rfl (by decide)
  exact h.1.trans (by decide)

/-- The per-URL state invariant of the spec: a record flagged
`alerted=true` carries a count strictly below the threshold. -/
def alertedImpliesBelow (st : AlertState) : Prop :=
  ∀ url r, lookupRecord st url = some r → r.alerted = some true →
    ∃ c : Int, r.count = some c ∧ c < (MIN_SUBCATEGORIES : Int)

/-- C4: the evaluation step never produces a record with `alerted=true`
and a count at or above the threshold — the invariant
`alertedImpliesBelow` is preserved by every evaluation step. -/
theorem evalTarget_preserves_alerted_below (now : String) (st : AlertState)
    (url : String) (obs : Observation) (h : alertedImpliesBelow st) :
    alertedImpliesBelow (evalTarget now st url obs).state := by
  intro u r hu ha
  cases obs with
  | err e => exact h u r hu ha
  | ok count =>
      by_cases hc : count < MIN_SUBCATEGORIES
      · by_cases hg : getAlerted st url
        · have hst : (evalTarget now st url (.ok count)).state = st := by
            unfold evalTarget
            simp [hc, hg]
          rw [hst] at hu
          exact h u r hu ha
        · have hst : (evalTarget now st url (.ok count)).state =
              setRecord st url ⟨some true, some now, some (Int.ofNat count)⟩ := by
            unfold evalTarget
            simp [hc, hg]
          rw [hst, lookupRecord_setRecord] at hu
          by_cases hu2 : u = url
          · rw [if_pos hu2] at hu
            obtain rfl : r = ⟨some true, some now, some (Int.ofNat count)⟩ :=
              (Option.some_injective _ hu).symm
            refine ⟨Int.ofNat count, rfl, ?_⟩
            rw [Int.ofNat_eq_coe]
            exact_mod_cast hc
          · rw [if_neg hu2] at hu
            exact h u r hu ha
      · by_cases hg : getAlerted st url
        · have hst : (evalTarget now st url (.ok count)).state =
              setRecord st url ⟨some false, some now, some (Int.ofNat count)⟩ := by
            unfold evalTarget
            simp [hc, hg]
          rw [hst, lookupRecord_setRecord] at hu
          by_cases hu2 : u = url
          · rw [if_pos hu2] at hu
            obtain rfl : r = ⟨some false, some now, some (Int.ofNat count)⟩ :=
              (Option.some_injective _ hu).symm
            exact absurd ha (by simp)
          · rw [if_neg hu2] at hu
            exact h u r hu ha
        · have hst : (evalTarget now st url (.ok count)).state = st := by
            unfold evalTarget
            simp [hc, hg]
          rw [hst] at hu
          exact h u r hu ha

theorem evalTarget_preserves_alerted_below_witness :
    alertedImpliesBelow (evalTarget "T" [] "u" (.ok 3)).state :=
  evalTarget_preserves_alerted_below "T" [] "u" (.ok 3)
    (fun u r hu _ => by simp [lookupRecord] at hu)

/-- C7: the exit code of a run does not depend on the SMS send result,
and it is 0 exactly when no issue was found and 1 exactly when at least
one was. -/
theorem runMonitor_exitCode (now : String) (targets : List (String × Observation))
    (st : AlertState) (f g : String → Bool) :
    (runMonitor now targets st f).exitCode = (runMonitor now targets st g).exitCode ∧
    ((runMonitor now targets st f).exitCode = 0 ↔
      (runMonitor now targets st f).issuesFound = []) ∧
    ((runMonitor now targets st f).exitCode = 1 ↔
      (runMonitor now targets st f).issuesFound ≠ []) := by
  unfold runMonitor
  by_cases he : (processTargets now targets st).issues = [] <;>
    simp [he]

/-- C8: the notifier returns `false` (rather than propagating an
exception) both when a configuration value is absent and when the
provider call errors; and neither the persisted final state nor the
exit code of a run depends on the SMS send result. -/
theorem send_twilio_alert_failure (cfg : TwilioConfig)
    (prov : String → Except String String) (msg : String)
    (now : String) (targets : List (String × Observation)) (st : AlertState)
    (sms sms' : String → Bool)
    (h : cfg.accountSid = none ∨ cfg.authToken = none ∨ cfg.phoneFrom = none ∨
         cfg.phoneTo = none ∨ ∃ e, prov msg = .error e) :
    send_twilio_alert cfg prov msg = false ∧
    (runMonitor now targets st sms).finalState =
      (runMonitor now targets st sms').finalState ∧
    (runMonitor now targets st sms).exitCode =
      (runMonitor now targets st sms').exitCode := by
  refine ⟨?_, rfl, rfl⟩
  unfold send_twilio_alert
  rcases h with h | h | h | h | ⟨e, he⟩
  · simp [truthy, h]
  · simp [truthy, h]
  · simp [truthy, h]
  · simp [truthy, h]
  · by_cases hcond : (truthy cfg.accountSid && truthy cfg.authToken &&
        truthy cfg.phoneFrom && truthy cfg.phoneTo) = true
    · simp [hcond, he]
    · simp [hcond]

theorem send_twilio_alert_failure_witness :
    send_twilio_alert ⟨none, some "t", some "f", some "to"⟩
      (fun _ => .ok "sid") "m" = false ∧
    (runMonitor "T" [] [] (fun _ => true)).finalState =
      (runMonitor "T" [] [] (fun _ => false)).finalState ∧
    (runMonitor "T" [] [] (fun _ => true)).exitCode =
      (runMonitor "T" [] [] (fun _ => false)).exitCode :=
  send_twilio_alert_failure ⟨none, some "t", some "f", some "to"⟩
    (fun _ => .ok "sid") "m" "T" [] [] (fun _ => true) (fun _ => false)
    (Or.inl rfl)

/-- C9: saving the alert state and loading it back yields the same
mapping, for every state whose URLs are distinct (as they are in a
dict). -/
theorem save_load_roundtrip (st : AlertState)
    (h : (st.map Prod.fst).Nodup) :
    load_alert_state (some (save_alert_state st)) = st := by
  show (List.map (fun p => (p.1, encodeRecord p.2)) st).foldl
      (fun acc p => setRecord acc p.1 (decodeRecord p.2)) [] = st
  rw [List.foldl_map]
  have hfun : (fun (acc : AlertState) (p : String × AlertRecord) =>
      setRecord acc (p.1, encodeRecord p.2).1 (decodeRecord (p.1, encodeRecord p.2).2)) =
      (fun (acc : AlertState) (p : String × AlertRecord) => setRecord acc p.1 p.2) := by
    funext acc p
    simp [decodeRecord_encodeRecord]
  rw [hfun]
  simpa using foldl_setRecord_nodup st [] (by simpa using h)

theorem save_load_roundtrip_witness :
    load_alert_state (some (save_alert_state
      [("a", ⟨some true, some "t1", some 3⟩), ("b", ⟨none, none, none⟩)])) =
      [("a", ⟨some true, some "t1", some 3⟩), ("b", ⟨none, none, none⟩)] :=
  save_load_roundtrip
    [("a", ⟨some true, some "t1", some 3⟩), ("b", ⟨none, none, none⟩)]
    (by decide)

/-- C10: a URL with no entry, or whose record lacks the `alerted` key,
is treated exactly like `alerted=false`: a below-threshold count emits
a fresh issue and writes an `alerted=true` record, and an
at-or-above-threshold count emits nothing and leaves the state
unchanged. -/
theorem missing_alerted_like_false (now : String) (st : AlertState)
    (url : String) (count : Nat)
    (h : lookupRecord st url = none ∨
         ∃ r, lookupRecord st url = some r ∧ r.alerted = none) :
    (count < MIN_SUBCATEGORIES →
      evalTarget now st url (.ok count) =
        ⟨setRecord st url ⟨some true, some now, some (Int.ofNat count)⟩,
         [pageName url ++ ": " ++ toString count ++ " subcategories (minimum: " ++
          toString MIN_SUBCATEGORIES ++ ")"], []⟩) ∧
    (MIN_SUBCATEGORIES ≤ count →
      evalTarget now st url (.ok count) = ⟨st, [], []⟩) := by
  have hg := getAlerted_eq_false st url h
  constructor
  · intro hc
    unfold evalTarget
    simp [hc, hg]
  · intro hc
    have hnc : ¬(count < MIN_SUBCATEGORIES) := Nat.not_lt.mpr hc
    unfold evalTarget
    simp [hnc, hg]

theorem missing_alerted_like_false_witness :
    evalTarget "T" [("u", ⟨none, some "x", some 2⟩)] "u" (.ok 9) =
      ⟨[("u", ⟨none, some "x", some 2⟩)], [], []⟩ :=
  (missing_alerted_like_false "T" [("u", ⟨none, some "x", some 2⟩)] "u" 9
    (Or.inr ⟨⟨none, some "x", some 2⟩, rfl, rfl⟩)).2 (by decide)
